import Mathlib

/-!
Verification development for the great_expectations transformer module
(`kedro/contrib/great_expectations_transformer/expectations_evaluator.py`).

The module is integration glue: it scans a catalog configuration for
expectation-suite references, sets up a great_expectations project,
and wraps dataset load/save with validation, result serialization and a
failure policy.

The embedding below models:
  * catalog configurations as association lists `List (String × entry)`
    (Python dicts with unique keys, insertion-ordered);
  * filesystem paths as lists of path components (`Path` segments);
  * validation result dictionaries as structures mirroring the fields the
    code reads (`success`, `statistics`, `results`, `meta`);
  * the side effects of the transformer (logging, mkdir, file copy, JSON
    dump, the external validate call) as an ordered event trace;
  * Python exceptions (`FailedValidationException`, `KeyError`) as an
    `Except` error type.
-/

/-- First-match association-list lookup: the semantics of Python `d[k]`
(together with `k in d.keys()` as `isSome`) for a dict represented as an
insertion-ordered list of key-value pairs. -/
def lookupA {α : Type} : List (String × α) → String → Option α
  | [], _ => none
  | p :: ps, k => if p.1 = k then some p.2 else lookupA ps k

/-- Insertion into a Python dict under construction: an existing binding of
the key is overwritten in place, a new key is appended at the end. -/
def dictInsert {α : Type} (d : List (String × α)) (k : String) (v : α) :
    List (String × α) :=
  if (d.map Prod.fst).contains k then
    d.map (fun p => if p.1 = k then (k, v) else p)
  else
    d ++ [(k, v)]

/-- A catalog entry: the key-value configuration map of one dataset. -/
abbrev CatalogEntry (α : Type) := List (String × α)

/-- A catalog configuration: dataset name to entry map, as returned by
`project_context.config_loader.get("catalog*", "catalog*/**")`. -/
abbrev Catalog (α : Type) := List (String × CatalogEntry α)

/-- Model of `get_names_and_expectations_suite`: the dict comprehension
`{name: catalog[name]["expectations_suite"] for name in datasets
  if "expectations_suite" in catalog[name].keys()}`. -/
def get_names_and_expectations_suite {α : Type} (catalog : Catalog α) :
    List (String × α) :=
  catalog.filterMap fun p =>
    (lookupA p.2 "expectations_suite").map fun v => (p.1, v)

/-- Model of `remove_expectations_suite_from_catalog`: the nested dict comprehension
`{name: {key: val for key, val in catalog[name].items()
         if key != "expectations_suite"} for name in catalog.keys()}`. -/
def remove_expectations_suite_from_catalog {α : Type} (catalog : Catalog α) :
    Catalog α :=
  catalog.map fun p =>
    (p.1, p.2.filter fun kv => decide (kv.1 ≠ "expectations_suite"))

/-- The `expectation_config` of one per-expectation result: its
`expectation_type` and its `kwargs` dict. -/
structure ExpectationConfig where
  expectation_type : String
  kwargs : List (String × String)
  deriving DecidableEq, Repr

/-- One element of `validation["results"]`. -/
structure ValidationResult where
  success : Bool
  expectation_config : ExpectationConfig
  deriving DecidableEq, Repr

/-- The validation result dictionary returned by
`PandasDataset.validate`: the fields the module reads. -/
structure Validation where
  success : Bool
  statistics : String
  results : List ValidationResult
  expectation_suite_name : String
  deriving DecidableEq, Repr

/-- A Python exception escaping the module: the bare domain exception
`raise FailedValidationException` (whose message is the empty string, since
no argument is passed), or a `KeyError` from a failed dict lookup. -/
inductive PyError where
  | failedValidation (message : String)
  | keyError (key : String)
  deriving DecidableEq, Repr

/-- Payloads of the module's log calls. -/
inductive LogMsg where
  | statistics (stats : String)
  | validating (dataset : String) (suiteFile : String)
  | expectationsFailed (failed : List (String × String))
  deriving DecidableEq, Repr

/-- Observable actions of the transformer, in program order. -/
inductive Event where
  | underlyingLoad
  | underlyingSave
  | logInfo (m : LogMsg)
  | logWarning (m : LogMsg)
  | logError (m : LogMsg)
  | mkdirP (path : List String)
  | copyFile (src : List String) (dest : List String)
  | validate (run_id : String) (result_format : String)
      (catch_exceptions : Bool)
  | writeJson (path : List String) (v : Validation)
  deriving DecidableEq, Repr

/-- The dict comprehension in `raise_on_failure`, built left to right:
`{r["expectation_config"]["expectation_type"]:
   r["expectation_config"]["kwargs"]["column"]
  for r in validation["results"] if not r["success"]}`.
The lookup `["column"]` raises `KeyError` when absent. -/
def buildFailedValidationsAux (acc : List (String × String)) :
    List ValidationResult → Except PyError (List (String × String))
  | [] => .ok acc
  | r :: rs =>
    if r.success then
      buildFailedValidationsAux acc rs
    else
      match lookupA r.expectation_config.kwargs "column" with
      | none => .error (.keyError "column")
      | some c =>
          buildFailedValidationsAux
            (dictInsert acc r.expectation_config.expectation_type c) rs

/-- The `failed_validations` dict of `raise_on_failure`. -/
def buildFailedValidations (rs : List ValidationResult) :
    Except PyError (List (String × String)) :=
  buildFailedValidationsAux [] rs

/-- Model of `ExpectationsEvaluator.raise_on_failure`: returns the emitted log events
and either normal return or the raised exception. -/
def raise_on_failure (break_on_failure : Bool) (v : Validation) :
    List Event × Except PyError Unit :=
  let warnLog : List Event :=
    if break_on_failure = false ∧ v.success = false then
      [.logWarning (.statistics v.statistics)]
    else []
  let infoLog : List Event :=
    if v.success = true then [.logInfo (.statistics v.statistics)] else []
  if break_on_failure = true ∧ v.success = false then
    match buildFailedValidations v.results with
    | .error e => (warnLog ++ infoLog, .error e)
    | .ok fv =>
        (warnLog ++ infoLog ++ [.logError (.expectationsFailed fv)],
         .error (.failedValidation ""))
  else
    (warnLog ++ infoLog, .ok ())

/-- The validation tool's three-level name for a data location, produced by
the external `DataContext.normalize_data_asset_name`. -/
structure NormalizedDataAssetName where
  datasource : String
  generator : String
  generator_asset : String
  deriving DecidableEq, Repr

/-- The constructor arguments of `ExpectationsEvaluator`. Paths are lists of
path components (`pathlib.Path.parts`). -/
structure ExpectationsEvaluator where
  kedro_dataset_name : String
  expectations_suite : List String
  run_id : String
  break_on_failure : Bool
  deriving Repr

/-- The external collaborators the transformer consults: the
great_expectations root directory, the kedro dataset's `_filepath`, and the
tool's data-asset-name normalization. -/
structure GEEnv where
  root_directory : List String
  kedro_dataset_path : List String
  normalize : List String → NormalizedDataAssetName

/-- Model of `ExpectationsEvaluator.normalize_data_asset` applied to the kedro
dataset's file path. -/
def normalize_data_asset (env : GEEnv) : NormalizedDataAssetName :=
  env.normalize env.kedro_dataset_path

/-- Model of `ExpectationsEvaluator.copy_expectations_to_great_expectations`: the
effects of copying the suite file (the `path_to_expectations` argument is
overwritten by `self.expectations_suite` before use, so the function is
closed over the evaluator). `parts[-1]` is the last path component. -/
def copy_expectations_to_great_expectations (env : GEEnv)
    (ev : ExpectationsEvaluator) : List Event :=
  let normalized := normalize_data_asset env
  let expectations_suite_filename := ev.expectations_suite.getLastD ""
  let expectations_copy_path :=
    env.root_directory ++
      ["expectations", normalized.datasource, normalized.generator,
       normalized.generator_asset]
  [.mkdirP expectations_copy_path,
   .copyFile ev.expectations_suite
     (expectations_copy_path ++ [expectations_suite_filename])]

/-- Model of `ExpectationsEvaluator.save_validations`: mkdir of the per-run results
folder, then the JSON dump of the validation dictionary. -/
def save_validations (env : GEEnv) (ev : ExpectationsEvaluator)
    (validation : Validation) : List Event :=
  let normalized := normalize_data_asset env
  let validations_file_name := validation.expectation_suite_name ++ ".json"
  let validations_location :=
    env.root_directory ++
      ["uncommitted", "validations", ev.run_id, normalized.datasource,
       normalized.generator, normalized.generator_asset]
  [.mkdirP validations_location,
   .writeJson (validations_location ++ [validations_file_name]) validation]

/-- Model of `ExpectationsEvaluator.load`: the underlying load, the suite copy, the
info log, the external validate call (whose result is the parameter
`validation`), result serialization, and the failure policy, in program
order. -/
def ExpectationsEvaluator.load (env : GEEnv) (ev : ExpectationsEvaluator)
    (validation : Validation) : List Event × Except PyError Unit :=
  ([Event.underlyingLoad] ++
     copy_expectations_to_great_expectations env ev ++
     [Event.logInfo
        (LogMsg.validating ev.kedro_dataset_name
          (ev.expectations_suite.getLastD ""))] ++
     [Event.validate ev.run_id "COMPLETE" true] ++
     save_validations env ev validation ++
     (raise_on_failure ev.break_on_failure validation).1,
   (raise_on_failure ev.break_on_failure validation).2)

/-- Model of `ExpectationsEvaluator.save`: the underlying save, then the same
pipeline as `load`. -/
def ExpectationsEvaluator.save (env : GEEnv) (ev : ExpectationsEvaluator)
    (validation : Validation) : List Event × Except PyError Unit :=
  ([Event.underlyingSave] ++
     copy_expectations_to_great_expectations env ev ++
     [Event.logInfo
        (LogMsg.validating ev.kedro_dataset_name
          (ev.expectations_suite.getLastD ""))] ++
     [Event.validate ev.run_id "COMPLETE" true] ++
     save_validations env ev validation ++
     (raise_on_failure ev.break_on_failure validation).1,
   (raise_on_failure ev.break_on_failure validation).2)

/-- One generator entry of the great_expectations datasource config. -/
structure GeneratorCfg where
  class_name : String
  base_directory : String
  reader_options_sep : Option String
  reader_options_engine : String
  deriving DecidableEq, Repr

/-- One datasource of the great_expectations project config. -/
structure Datasource where
  class_name : String
  data_asset_type_class_name : String
  generators : List (String × GeneratorCfg)
  deriving DecidableEq, Repr

/-- The great_expectations project state the setup helper touches: whether
the marker file `great_expectations/great_expectations.yml` exists, and the
configured datasources. -/
structure GEState where
  projectExists : Bool
  datasources : List (String × Datasource)
  deriving DecidableEq, Repr

/-- Model of `ExpectationsSetup.create_ge_project`: no-op when the marker file
exists, otherwise `DataContext.create` scaffolds a fresh project (with no
datasources). -/
def create_ge_project (s : GEState) : GEState :=
  if s.projectExists then s
  else { projectExists := true, datasources := [] }

/-- Model of `ExpectationsSetup.create_generators`: one generator per top-level
subdirectory of `data`; when there is none, a single generator named after
the `data` directory itself. `dataDirs` is the list of subdirectory names. -/
def create_generators (dataDirs : List String) :
    List (String × GeneratorCfg) :=
  if dataDirs.isEmpty then
    [("data",
      { class_name := "SubdirReaderGenerator", base_directory := "data",
        reader_options_sep := none, reader_options_engine := "python" })]
  else
    dataDirs.map fun child =>
      (child,
       { class_name := "SubdirReaderGenerator",
         base_directory := "data/" ++ child,
         reader_options_sep := none, reader_options_engine := "python" })

/-- Model of `ExpectationsSetup.setup_datasources`: `datasources.clear()` followed by
`add_datasource(name="data", ...)` and a config save. -/
def setup_datasources (dataDirs : List String) (s : GEState) : GEState :=
  { s with
    datasources :=
      [("data",
        { class_name := "PandasDatasource",
          data_asset_type_class_name := "PandasDataset",
          generators := create_generators dataDirs })] }

/-- Model of `ExpectationsSetup.__init__`: `create_ge_project` then
`setup_datasources`. -/
def ExpectationsSetup_init (dataDirs : List String) (s : GEState) : GEState :=
  setup_datasources dataDirs (create_ge_project s)

def exampleCatalog : Catalog String :=
  [("cars",
    [("filepath", "data/01_raw/cars.csv"), ("type", "pandas.CSVDataSet"),
     ("expectations_suite", "suites/cars.json")]),
   ("boats",
    [("filepath", "data/01_raw/boats.csv"), ("type", "pandas.CSVDataSet")])]

def failedNoColumn : ValidationResult :=
  { success := false,
    expectation_config :=
      { expectation_type := "expect_table_row_count_to_be_between",
        kwargs := [("min_value", "1")] } }

def validationNoColumn : Validation :=
  { success := false, statistics := "stats", results := [failedNoColumn],
    expectation_suite_name := "cars_suite" }

def validationWithColumn : Validation :=
  { success := false, statistics := "stats",
    results :=
      [{ success := false,
         expectation_config :=
           { expectation_type := "expect_column_values_to_not_be_null",
             kwargs := [("column", "age")] } }],
    expectation_suite_name := "cars_suite" }

def oldDatasource : Datasource :=
  { class_name := "SqlAlchemyDatasource",
    data_asset_type_class_name := "SqlAlchemyDataset",
    generators := [] }

def preexistingState : GEState :=
  { projectExists := true, datasources := [("legacy", oldDatasource)] }

theorem lookupA_nil {α : Type} (k : String) :
    lookupA ([] : List (String × α)) k = none := rfl

theorem lookupA_cons {α : Type} (p : String × α) (ps : List (String × α))
    (k : String) :
    lookupA (p :: ps) k = if p.1 = k then some p.2 else lookupA ps k := rfl

theorem lookupA_eq_none_of_not_mem {α : Type} :
    ∀ (l : List (String × α)) (k : String),
      k ∉ l.map Prod.fst → lookupA l k = none := by
  intro l
  induction l with
  | nil => intro k _; rfl
  | cons p ps ih =>
      intro k hk
      simp only [List.map_cons, List.mem_cons] at hk
      push_neg at hk
      rw [lookupA_cons, if_neg (by exact fun h => hk.1 h.symm), ih k hk.2]

theorem lookupA_map_value {α β : Type} (f : α → β) :
    ∀ (l : List (String × α)) (k : String),
      lookupA (l.map fun p => (p.1, f p.2)) k = (lookupA l k).map f := by
  intro l
  induction l with
  | nil => intro k; rfl
  | cons p ps ih =>
      intro k
      by_cases h : p.1 = k
      · simp [lookupA_cons, h]
      · simp [lookupA_cons, h, ih k]

theorem mem_dictInsert {α : Type} (d : List (String × α)) (k : String)
    (v : α) (p : String × α) :
    p ∈ dictInsert d k v → p ∈ d ∨ p = (k, v) := by
  intro hp
  unfold dictInsert at hp
  by_cases hc : (d.map Prod.fst).contains k
  · rw [if_pos hc] at hp
    rcases List.mem_map.mp hp with ⟨q, hq, hqe⟩
    by_cases hqk : q.1 = k
    · right
      rw [if_pos hqk] at hqe
      exact hqe.symm
    · left
      rw [if_neg hqk] at hqe
      exact hqe ▸ hq
  · rw [if_neg hc] at hp
    rcases List.mem_append.mp hp with h | h
    · exact Or.inl h
    · right
      simpa using h

theorem buildFailedValidationsAux_ok {rs : List ValidationResult}
    (h : ∀ r ∈ rs, r.success = false →
      (lookupA r.expectation_config.kwargs "column").isSome) :
    ∀ acc, ∃ fv, buildFailedValidationsAux acc rs = .ok fv := by
  induction rs with
  | nil => intro acc; exact ⟨acc, rfl⟩
  | cons r rs ih =>
      intro acc
      by_cases hs : r.success
      · rcases ih (fun q hq => h q (List.mem_cons_of_mem r hq)) acc with ⟨fv, hfv⟩
        exact ⟨fv, by rw [buildFailedValidationsAux, if_pos hs, hfv]⟩
      · have hsf : r.success = false := by simpa using hs
        have hcol := h r (List.mem_cons_self r rs) hsf
        rcases Option.isSome_iff_exists.mp hcol with ⟨c, hc⟩
        rcases ih (fun q hq => h q (List.mem_cons_of_mem r hq))
            (dictInsert acc r.expectation_config.expectation_type c) with
          ⟨fv, hfv⟩
        exact ⟨fv, by rw [buildFailedValidationsAux, if_neg hs, hc]; exact hfv⟩

theorem buildFailedValidationsAux_err {rs : List ValidationResult}
    (h : ∃ r ∈ rs, r.success = false ∧
      lookupA r.expectation_config.kwargs "column" = none) :
    ∀ acc, buildFailedValidationsAux acc rs = .error (.keyError "column") := by
  induction rs with
  | nil => simp at h
  | cons r rs ih =>
      intro acc
      rcases h with ⟨q, hq, hqf, hqc⟩
      rcases List.mem_cons.mp hq with hqr | hqmem
      · subst hqr
        rw [buildFailedValidationsAux, if_neg (by simp [hqf]), hqc]
      · by_cases hs : r.success
        · rw [buildFailedValidationsAux, if_pos hs]
          exact ih ⟨q, hqmem, hqf, hqc⟩ acc
        · rw [buildFailedValidationsAux, if_neg hs]
          cases hc : lookupA r.expectation_config.kwargs "column" with
          | none => rfl
          | some c => exact ih ⟨q, hqmem, hqf, hqc⟩ _

theorem buildFailedValidationsAux_mem {rs : List ValidationResult} :
    ∀ {acc fv : List (String × String)},
      buildFailedValidationsAux acc rs = .ok fv →
      ∀ p ∈ fv, p ∈ acc ∨
        ∃ r ∈ rs, r.success = false ∧
          r.expectation_config.expectation_type = p.1 ∧
          lookupA r.expectation_config.kwargs "column" = some p.2 := by
  induction rs with
  | nil =>
      intro acc fv hok p hp
      rw [buildFailedValidationsAux] at hok
      cases hok
      exact Or.inl hp
  | cons r rs ih =>
      intro acc fv hok p hp
      rw [buildFailedValidationsAux] at hok
      by_cases hs : r.success
      · rw [if_pos hs] at hok
        rcases ih hok p hp with h | ⟨q, hq, hrest⟩
        · exact Or.inl h
        · exact Or.inr ⟨q, List.mem_cons_of_mem r hq, hrest⟩
      · rw [if_neg hs] at hok
        cases hc : lookupA r.expectation_config.kwargs "column" with
        | none => rw [hc] at hok; cases hok
        | some c =>
            rw [hc] at hok
            rcases ih hok p hp with h | ⟨q, hq, hrest⟩
            · rcases mem_dictInsert _ _ _ _ h with h' | h'
              · exact Or.inl h'
              · refine Or.inr ⟨r, List.mem_cons_self r rs, by simpa using hs,
                  ?_, ?_⟩
                · rw [h']
                · rw [h', hc]
            · exact Or.inr ⟨q, List.mem_cons_of_mem r hq, hrest⟩

theorem gnes_keys_sub {α : Type} (catalog : Catalog α) (name : String)
    (h : name ∈ (get_names_and_expectations_suite catalog).map Prod.fst) :
    name ∈ catalog.map Prod.fst := by
  rcases List.mem_map.mp h with ⟨p, hp, hpe⟩
  rcases List.mem_filterMap.mp hp with ⟨q, hq, hfq⟩
  rcases Option.map_eq_some'.mp hfq with ⟨v, _, hv⟩
  have : q.1 = name := by rw [← hpe, ← hv]
  exact this ▸ List.mem_map_of_mem Prod.fst hq

theorem gnes_lookup {α : Type} :
    ∀ (catalog : Catalog α), (catalog.map Prod.fst).Nodup →
    ∀ name, lookupA (get_names_and_expectations_suite catalog) name =
      (lookupA catalog name).bind fun e => lookupA e "expectations_suite" := by
  intro catalog
  induction catalog with
  | nil => intro _ name; rfl
  | cons p ps ih =>
      intro hnd name
      rw [List.map_cons, List.nodup_cons] at hnd
      cases hsp : lookupA p.2 "expectations_suite" with
      | none =>
          have hstep : get_names_and_expectations_suite (p :: ps) =
              get_names_and_expectations_suite ps := by
            simp [get_names_and_expectations_suite, List.filterMap_cons, hsp]
          by_cases hn : p.1 = name
          · subst hn
            rw [hstep, lookupA_cons, if_pos rfl, Option.some_bind, hsp]
            apply lookupA_eq_none_of_not_mem
            exact fun hmem => hnd.1 (gnes_keys_sub ps p.1 hmem)
          · rw [hstep, lookupA_cons, if_neg hn]
            exact ih hnd.2 name
      | some v =>
          have hstep : get_names_and_expectations_suite (p :: ps) =
              (p.1, v) :: get_names_and_expectations_suite ps := by
            simp [get_names_and_expectations_suite, List.filterMap_cons, hsp]
          by_cases hn : p.1 = name
          · subst hn
            rw [hstep, lookupA_cons, if_pos rfl, lookupA_cons, if_pos rfl,
              Option.some_bind, hsp]
          · rw [hstep, lookupA_cons, if_neg hn, lookupA_cons, if_neg hn]
            exact ih hnd.2 name

theorem gnes_keys {α : Type} (catalog : Catalog α) :
    (get_names_and_expectations_suite catalog).map Prod.fst =
      (catalog.filter fun p =>
        (lookupA p.2 "expectations_suite").isSome).map Prod.fst := by
  induction catalog with
  | nil => rfl
  | cons p ps ih =>
      cases hsp : lookupA p.2 "expectations_suite" with
      | none =>
          simp only [get_names_and_expectations_suite, List.filterMap_cons,
            hsp, Option.map_none', List.filter_cons, Option.isSome_none,
            Bool.false_eq_true, if_false]
          exact ih
      | some v =>
          simp only [get_names_and_expectations_suite, List.filterMap_cons,
            hsp, Option.map_some', List.filter_cons, Option.isSome_some,
            if_true, List.map_cons]
          exact congrArg (List.cons p.1) ih

/-- C2: for a catalog configuration with unique dataset names (a Python
dict), `get_names_and_expectations_suite` binds exactly the dataset names
whose entry has an `"expectations_suite"` key, each to that entry's
`"expectations_suite"` value: looking a name up in the returned dictionary
is looking it up in the catalog and then looking up the suite key, and the
returned key list is exactly the names of the entries having the key. -/
theorem get_names_and_expectations_suite_correct {α : Type}
    (catalog : Catalog α) (hnd : (catalog.map Prod.fst).Nodup) :
    (∀ name, lookupA (get_names_and_expectations_suite catalog) name =
      (lookupA catalog name).bind fun e => lookupA e "expectations_suite")
    ∧ (get_names_and_expectations_suite catalog).map Prod.fst =
        (catalog.filter fun p =>
          (lookupA p.2 "expectations_suite").isSome).map Prod.fst :=
  ⟨gnes_lookup catalog hnd, gnes_keys catalog⟩

theorem get_names_and_expectations_suite_correct_witness :
    (exampleCatalog.map Prod.fst).Nodup
    ∧ lookupA (get_names_and_expectations_suite exampleCatalog) "cars" =
        (lookupA exampleCatalog "cars").bind
          (fun e => lookupA e "expectations_suite")
    ∧ lookupA (get_names_and_expectations_suite exampleCatalog) "cars" =
        some "suites/cars.json" :=
  ⟨by decide,
   (get_names_and_expectations_suite_correct exampleCatalog (by decide)).1
     "cars",
   by rfl⟩

theorem lookupA_filter_ne {α : Type} :
    ∀ (e : CatalogEntry α) (k : String),
      lookupA (e.filter fun kv => decide (kv.1 ≠ "expectations_suite")) k =
        if k = "expectations_suite" then none else lookupA e k := by
  intro e
  induction e with
  | nil => intro k; by_cases hk : k = "expectations_suite" <;> simp [lookupA, hk]
  | cons kv e ih =>
      intro k
      rw [List.filter_cons]
      by_cases h1 : kv.1 = "expectations_suite"
      · have hd : decide (kv.1 ≠ "expectations_suite") = false := by simp [h1]
        rw [hd]
        simp only [Bool.false_eq_true, if_false]
        rw [ih k]
        by_cases h2 : k = "expectations_suite"
        · rw [if_pos h2, if_pos h2]
        · rw [if_neg h2, if_neg h2, lookupA_cons,
            if_neg (fun hc => h2 (hc.symm.trans h1).symm.symm)]
      · have hd : decide (kv.1 ≠ "expectations_suite") = true := by simp [h1]
        rw [hd]
        simp only [if_true]
        rw [lookupA_cons]
        by_cases h3 : kv.1 = k
        · have h2 : ¬k = "expectations_suite" := fun hc => h1 (h3.trans hc)
          rw [if_pos h3, if_neg h2, lookupA_cons, if_pos h3]
        · rw [if_neg h3, ih k]
          by_cases h2 : k = "expectations_suite"
          · rw [if_pos h2, if_pos h2]
          · rw [if_neg h2, if_neg h2, lookupA_cons, if_neg h3]

/-- C3: `remove_expectations_suite_from_catalog` keeps the dataset names
(in order), maps every entry to the same entry with the
`"expectations_suite"` pair filtered out, and in the filtered entry the
`"expectations_suite"` key is gone while every other key keeps its original
value. -/
theorem remove_expectations_suite_from_catalog_correct {α : Type}
    (catalog : Catalog α) :
    ((remove_expectations_suite_from_catalog catalog).map Prod.fst =
      catalog.map Prod.fst)
    ∧ (∀ name, lookupA (remove_expectations_suite_from_catalog catalog) name =
        (lookupA catalog name).map fun e =>
          e.filter fun kv => decide (kv.1 ≠ "expectations_suite"))
    ∧ (∀ (e : CatalogEntry α) (k : String),
        lookupA (e.filter fun kv => decide (kv.1 ≠ "expectations_suite")) k =
          if k = "expectations_suite" then none else lookupA e k) := by
  refine ⟨?_, ?_, fun e k => lookupA_filter_ne e k⟩
  · simp [remove_expectations_suite_from_catalog]
  · intro name
    exact lookupA_map_value _ catalog name

/-- C1 counterexample: with `break_on_failure = true` and a failing
validation whose failed per-expectation result has no `"column"` kwarg
(a table-level expectation), the call raises `KeyError`, not
`FailedValidationException` — so "raises FailedValidationException iff
strict and failing" is false as stated. -/
theorem raise_on_failure_missing_column_counterexample :
    validationNoColumn.success = false
    ∧ (raise_on_failure true validationNoColumn).2 =
        Except.error (PyError.keyError "column")
    ∧ (Except.error (PyError.keyError "column") :
        Except PyError Unit) ≠
          Except.error (PyError.failedValidation "") := by
  refine ⟨rfl, rfl, ?_⟩
  simp

/-- C1 (amended): provided every failed per-expectation result carries a
`"column"` kwarg, `raise_on_failure` raises `FailedValidationException`
iff `break_on_failure` is true and the result's success flag is false;
when `break_on_failure` is false and the result fails, nothing is raised
and exactly a warning with the result's statistics is logged. -/
theorem raise_on_failure_policy (break_on_failure : Bool) (v : Validation)
    (hcol : ∀ r ∈ v.results, r.success = false →
      (lookupA r.expectation_config.kwargs "column").isSome) :
    ((raise_on_failure break_on_failure v).2 =
        Except.error (PyError.failedValidation "") ↔
      break_on_failure = true ∧ v.success = false)
    ∧ (break_on_failure = false ∧ v.success = false →
        raise_on_failure break_on_failure v =
          ([Event.logWarning (LogMsg.statistics v.statistics)],
           Except.ok ())) := by
  obtain ⟨fv, hfv⟩ := buildFailedValidationsAux_ok hcol []
  have hbv : buildFailedValidations v.results = .ok fv := hfv
  cases break_on_failure <;> cases hv : v.success <;>
    simp [raise_on_failure, hv, hbv]

theorem raise_on_failure_policy_witness :
    (∀ r ∈ validationWithColumn.results, r.success = false →
      (lookupA r.expectation_config.kwargs "column").isSome)
    ∧ ((raise_on_failure true validationWithColumn).2 =
        Except.error (PyError.failedValidation "") ↔
      true = true ∧ validationWithColumn.success = false) :=
  ⟨by decide,
   (raise_on_failure_policy true validationWithColumn (by decide)).1⟩

/-- C9: in strict mode on a failing result, a failed per-expectation result
without a `"column"` kwarg makes the call fail with `KeyError`; dually,
whenever the call does raise `FailedValidationException`, every failed
per-expectation result carried a `"column"` kwarg. -/
theorem raise_on_failure_keyerror (v : Validation) (hv : v.success = false) :
    ((∃ r ∈ v.results, r.success = false ∧
        lookupA r.expectation_config.kwargs "column" = none) →
      (raise_on_failure true v).2 = Except.error (PyError.keyError "column"))
    ∧ ((raise_on_failure true v).2 =
        Except.error (PyError.failedValidation "") →
      ∀ r ∈ v.results, r.success = false →
        (lookupA r.expectation_config.kwargs "column").isSome) := by
  constructor
  · intro hbad
    have herr : buildFailedValidations v.results =
        .error (.keyError "column") :=
      buildFailedValidationsAux_err hbad []
    simp [raise_on_failure, hv, herr]
  · intro hok r hr hrf
    by_contra hcol
    have hnone : lookupA r.expectation_config.kwargs "column" = none :=
      Option.not_isSome_iff_eq_none.mp hcol
    have herr : buildFailedValidations v.results =
        .error (.keyError "column") :=
      buildFailedValidationsAux_err ⟨r, hr, hrf, hnone⟩ []
    simp [raise_on_failure, hv, herr] at hok

theorem raise_on_failure_keyerror_witness :
    validationNoColumn.success = false
    ∧ (raise_on_failure true validationNoColumn).2 =
        Except.error (PyError.keyError "column") :=
  ⟨rfl,
   (raise_on_failure_keyerror validationNoColumn rfl).1
     ⟨failedNoColumn, by decide, rfl, rfl⟩⟩

/-- C7 counterexample: at a concrete failing validation whose failed
expectation has type `expect_column_values_to_not_be_null` on column
`age`, the raised exception is the bare `FailedValidationException` with
the empty message — the exception itself lists neither the failed
expectation types nor the columns; the listing appears only in the
error-level log emitted just before the raise. -/
theorem failed_validation_exception_bare_counterexample :
    (raise_on_failure true validationWithColumn).2 =
      Except.error (PyError.failedValidation "")
    ∧ (raise_on_failure true validationWithColumn).1 =
        [Event.logError (LogMsg.expectationsFailed
          [("expect_column_values_to_not_be_null", "age")])] :=
  ⟨rfl, rfl⟩

/-- C7 (amended): in strict mode on a failing result (whose failed
expectations all carry a `"column"` kwarg), the exception raised is the
domain-specific `FailedValidationException` carrying no message, and the
failed expectation types with the columns they failed on are listed in the
error-level log emitted immediately before the raise; every listed pair
comes from a failed per-expectation result of the validation. -/
theorem failure_listing_in_log (v : Validation)
    (fv : List (String × String)) (hv : v.success = false)
    (hfv : buildFailedValidations v.results = .ok fv) :
    raise_on_failure true v =
      ([Event.logError (LogMsg.expectationsFailed fv)],
       Except.error (PyError.failedValidation ""))
    ∧ ∀ p ∈ fv, ∃ r ∈ v.results, r.success = false ∧
        r.expectation_config.expectation_type = p.1 ∧
        lookupA r.expectation_config.kwargs "column" = some p.2 := by
  have hfv' : buildFailedValidationsAux [] v.results = .ok fv := hfv
  constructor
  · simp [raise_on_failure, hv, hfv]
  · intro p hp
    rcases buildFailedValidationsAux_mem hfv' p hp with h | h
    · simp at h
    · exact h

theorem failure_listing_in_log_witness :
    validationWithColumn.success = false
    ∧ buildFailedValidations validationWithColumn.results =
        Except.ok [("expect_column_values_to_not_be_null", "age")]
    ∧ raise_on_failure true validationWithColumn =
        ([Event.logError (LogMsg.expectationsFailed
            [("expect_column_values_to_not_be_null", "age")])],
         Except.error (PyError.failedValidation "")) :=
  ⟨rfl, rfl,
   (failure_listing_in_log validationWithColumn
       [("expect_column_values_to_not_be_null", "age")] rfl rfl).1⟩

/-- C4: `save_validations` emits exactly a mkdir of the per-run results
folder and a JSON write of the validation result to
`uncommitted/validations/<run_id>/<datasource>/<generator>/<generator_asset>/<expectation_suite_name>.json`
under the validation-tool root directory, where the three middle
components come from normalizing the dataset's file path and the file name
stem is the suite name from the result's metadata. -/
theorem save_validations_path_correct (env : GEEnv)
    (ev : ExpectationsEvaluator) (v : Validation) :
    save_validations env ev v =
      [Event.mkdirP
         (env.root_directory ++
           ["uncommitted", "validations", ev.run_id,
            (env.normalize env.kedro_dataset_path).datasource,
            (env.normalize env.kedro_dataset_path).generator,
            (env.normalize env.kedro_dataset_path).generator_asset]),
       Event.writeJson
         (env.root_directory ++
           ["uncommitted", "validations", ev.run_id,
            (env.normalize env.kedro_dataset_path).datasource,
            (env.normalize env.kedro_dataset_path).generator,
            (env.normalize env.kedro_dataset_path).generator_asset] ++
          [v.expectation_suite_name ++ ".json"]) v] := rfl

/-- C5: on both `load` and `save` the event trace is, in order: the
underlying load/save callable, the suite-file copy into the tool's layout
(mkdir then copy), the info log, the validation call with
`result_format="COMPLETE"` (and `catch_exceptions=True`), the
serialization of the result into the per-run results folder (mkdir then
JSON write), and the failure-policy events last; the overall outcome is
the failure policy's outcome, so the result file write is in the trace
before any strict-mode exception takes effect. -/
theorem load_save_event_order (env : GEEnv) (ev : ExpectationsEvaluator)
    (v : Validation) :
    let n := env.normalize env.kedro_dataset_path
    let fname := ev.expectations_suite.getLastD ""
    let expDir := env.root_directory ++
      ["expectations", n.datasource, n.generator, n.generator_asset]
    let valDir := env.root_directory ++
      ["uncommitted", "validations", ev.run_id, n.datasource, n.generator,
       n.generator_asset]
    let resultFile := valDir ++ [v.expectation_suite_name ++ ".json"]
    (ExpectationsEvaluator.load env ev v =
      (Event.underlyingLoad ::
         Event.mkdirP expDir ::
         Event.copyFile ev.expectations_suite (expDir ++ [fname]) ::
         Event.logInfo (LogMsg.validating ev.kedro_dataset_name fname) ::
         Event.validate ev.run_id "COMPLETE" true ::
         Event.mkdirP valDir ::
         Event.writeJson resultFile v ::
         (raise_on_failure ev.break_on_failure v).1,
       (raise_on_failure ev.break_on_failure v).2))
    ∧ (ExpectationsEvaluator.save env ev v =
      (Event.underlyingSave ::
         Event.mkdirP expDir ::
         Event.copyFile ev.expectations_suite (expDir ++ [fname]) ::
         Event.logInfo (LogMsg.validating ev.kedro_dataset_name fname) ::
         Event.validate ev.run_id "COMPLETE" true ::
         Event.mkdirP valDir ::
         Event.writeJson resultFile v ::
         (raise_on_failure ev.break_on_failure v).1,
       (raise_on_failure ev.break_on_failure v).2))
    ∧ Event.writeJson resultFile v ∈ (ExpectationsEvaluator.load env ev v).1
    ∧ Event.writeJson resultFile v ∈
        (ExpectationsEvaluator.save env ev v).1 := by
  refine ⟨rfl, rfl, ?_, ?_⟩ <;>
    simp [ExpectationsEvaluator.load, ExpectationsEvaluator.save,
      save_validations, copy_expectations_to_great_expectations,
      normalize_data_asset]

/-- C8: `copy_expectations_to_great_expectations` emits exactly a
(recursive, existence-tolerant) mkdir of
`expectations/<datasource>/<generator>/<generator_asset>/` under the
validation-tool root directory — the three components from normalizing
the dataset's file path — followed by a copy of the suite file into that
directory keeping its filename; and both events occur on every `load` and
every `save`. -/
theorem copy_expectations_path_correct (env : GEEnv)
    (name rid : String) (b : Bool) (parts : List String) (fname : String)
    (v : Validation) :
    let ev : ExpectationsEvaluator := ⟨name, parts ++ [fname], rid, b⟩
    let n := env.normalize env.kedro_dataset_path
    let dest := env.root_directory ++
      ["expectations", n.datasource, n.generator, n.generator_asset]
    (copy_expectations_to_great_expectations env ev =
      [Event.mkdirP dest,
       Event.copyFile (parts ++ [fname]) (dest ++ [fname])])
    ∧ Event.mkdirP dest ∈ (ExpectationsEvaluator.load env ev v).1
    ∧ Event.copyFile (parts ++ [fname]) (dest ++ [fname]) ∈
        (ExpectationsEvaluator.load env ev v).1
    ∧ Event.mkdirP dest ∈ (ExpectationsEvaluator.save env ev v).1
    ∧ Event.copyFile (parts ++ [fname]) (dest ++ [fname]) ∈
        (ExpectationsEvaluator.save env ev v).1 := by
  refine ⟨?_, ?_, ?_, ?_, ?_⟩ <;>
    simp [copy_expectations_to_great_expectations,
      ExpectationsEvaluator.load, ExpectationsEvaluator.save,
      normalize_data_asset, save_validations, List.getLastD_concat]

/-- C6 counterexample: a project state whose marker file exists and which
has a previously configured datasource named `legacy`; constructing
`ExpectationsSetup` on it is not a no-op — `setup_datasources` always runs
and replaces the datasources — so the state changes. -/
theorem setup_not_noop_counterexample :
    preexistingState.projectExists = true
    ∧ ExpectationsSetup_init [] preexistingState ≠ preexistingState := by
  refine ⟨rfl, ?_⟩
  decide

/-- C6 (amended): when the project marker file already exists, the
`create_ge_project` step of construction is a no-op on the project state,
and construction as a whole is idempotent — a second construction leaves
the state produced by the first unchanged — but a single construction is
not a no-op: it rewrites the datasource configuration. -/
theorem setup_idempotent_amended (dataDirs : List String) (s : GEState)
    (h : s.projectExists = true) :
    create_ge_project s = s
    ∧ ExpectationsSetup_init dataDirs (ExpectationsSetup_init dataDirs s) =
        ExpectationsSetup_init dataDirs s := by
  obtain ⟨pe, ds⟩ := s
  have hpe : pe = true := h
  subst hpe
  constructor
  · simp [create_ge_project]
  · simp [ExpectationsSetup_init, setup_datasources, create_ge_project]

theorem setup_idempotent_amended_witness :
    preexistingState.projectExists = true
    ∧ create_ge_project preexistingState = preexistingState
    ∧ ExpectationsSetup_init ["01_raw"]
        (ExpectationsSetup_init ["01_raw"] preexistingState) =
          ExpectationsSetup_init ["01_raw"] preexistingState :=
  ⟨rfl, (setup_idempotent_amended ["01_raw"] preexistingState rfl).1,
   (setup_idempotent_amended ["01_raw"] preexistingState rfl).2⟩

/-- C10: every construction of `ExpectationsSetup` — also when the project
marker file already exists — leaves the project with exactly one
datasource, named `data`, a `PandasDatasource` whose generators are built
from the current top-level subdirectories of the `data` directory; the
resulting datasources are independent of whatever was configured before. -/
theorem setup_datasources_reset (dataDirs : List String) (s s' : GEState) :
    (ExpectationsSetup_init dataDirs s).datasources =
      [("data",
        { class_name := "PandasDatasource",
          data_asset_type_class_name := "PandasDataset",
          generators := create_generators dataDirs })]
    ∧ (ExpectationsSetup_init dataDirs s).datasources.map Prod.fst = ["data"]
    ∧ (ExpectationsSetup_init dataDirs s).datasources =
        (ExpectationsSetup_init dataDirs s').datasources :=
  ⟨rfl, rfl, rfl⟩
